import Mathlib

/-!
Shallow embedding of the DeviceOnlineTracker core
(`custom_components/DeviceOnlineTracker/__init__.py`): the reachability
prober `check_device_status`, the per-tick accumulator fold inside
`update_device_data` (day rollover, online-time accumulation, rounding),
and the persistence save/load logic of `update_device_data` /
`async_setup_entry`.

Modelling conventions:
- Python `datetime` values are `Timestamp` records: a calendar day ordinal
  (local date) plus seconds since local midnight, as exact rationals;
  `total_seconds` matches `(t1 - t0).total_seconds()`.
- Python float arithmetic is modelled by exact rational arithmetic; all
  concrete instances below use values that are exactly representable in
  binary floating point, so they evaluate identically in Python.
- Python's built-in `round` (round half to even) is `pyround`.
- Fallible I/O (ICMP ping, subprocess ping, ARP table read, store save)
  is modelled by an explicit environment of oracles returning
  `Except`/`Option` values; the source's `try`/`except` handlers become
  explicit `match`es on those results.
-/

/-- A local-time instant: calendar day ordinal plus seconds since local
midnight (exact rational, microsecond resolution in Python). -/
structure Timestamp where
  day : Int
  sec : Rat
deriving DecidableEq

/-- Python `(t1 - t0).total_seconds()` for two local timestamps. -/
def total_seconds (t0 t1 : Timestamp) : Rat :=
  ((t1.day - t0.day : Int) : Rat) * 86400 + (t1.sec - t0.sec)

/-- The in-memory `device_data` dict of `__init__.py`: keys
`online_time`, `last_check`, `last_date`, `is_online`. -/
structure DeviceData where
  online_time : Rat
  last_check : Option Timestamp
  last_date : Int
  is_online : Bool
deriving DecidableEq

/-- Python's built-in `round` on exact values: round half to even. -/
def pyround (q : Rat) : Int :=
  if q - (⌊q⌋ : Rat) < 1/2 then ⌊q⌋
  else if (1 : Rat)/2 < q - (⌊q⌋ : Rat) then ⌊q⌋ + 1
  else if ⌊q⌋ % 2 = 0 then ⌊q⌋ else ⌊q⌋ + 1

/-- Lines 169-172 of `__init__.py`: if the observation's date differs from
`last_date`, reset `online_time` to 0 and set `last_date` to today. -/
def rollover (d : DeviceData) (now : Timestamp) : DeviceData :=
  if now.day ≠ d.last_date then { d with online_time := 0, last_date := now.day } else d

/-- Lines 174-177 of `__init__.py`: if a previous check exists and both the
previous and the current observation are online, add the elapsed time in
(fractional) minutes to `online_time`. -/
def accumulate (d : DeviceData) (is_online : Bool) (now : Timestamp) : DeviceData :=
  match d.last_check with
  | some lc =>
      if d.is_online && is_online then
        { d with online_time := d.online_time + total_seconds lc now / 60 }
      else d
  | none => d

/-- Lines 169-181 of `__init__.py`: the pure accumulator fold — day
rollover, accumulation, then setting `is_online`/`last_check` and rounding
the running total to a whole number of minutes. -/
def fold_observation (d : DeviceData) (is_online : Bool) (now : Timestamp) : DeviceData :=
  let d2 := accumulate (rollover d now) is_online now
  { d2 with is_online := is_online, last_check := some now,
            online_time := ((pyround d2.online_time : Int) : Rat) }

/-- One stored record of the persistence namespace (lines 186-193 of
`__init__.py`); ISO-format string serialization of dates and timestamps is
modelled as an exact round-trip. -/
structure SaveData where
  online_time : Rat
  last_date : Int
  is_online : Bool
  last_check : Option Timestamp
deriving DecidableEq

/-- Lines 186-193 of `__init__.py`: the record written for one entry after
a fold (`last_check` is stored only when present, which the `Option`
carries directly). -/
def save_device_data (d : DeviceData) : SaveData :=
  { online_time := d.online_time, last_date := d.last_date,
    is_online := d.is_online, last_check := d.last_check }

/-- Lines 213-249 of `__init__.py` (`async_setup_entry`): initialize
`device_data` with defaults for `today`, then, when a stored record for the
entry exists and carries today's date, restore `online_time`, `last_date`
and (when stored) `last_check`. `is_online` is never restored: it keeps
its default `false`. A missing or stale-day record leaves the defaults. -/
def load_device_data (stored : Option SaveData) (today : Int) : DeviceData :=
  let dflt : DeviceData :=
    { online_time := 0, last_check := none, last_date := today, is_online := false }
  match stored with
  | some e =>
      if e.last_date = today then
        { online_time := e.online_time, last_date := e.last_date,
          last_check := e.last_check, is_online := false }
      else dflt
  | none => dflt

/-- Lines 153-203 of `__init__.py` (`update_device_data`): the per-tick
update, taking the probe's result and the save outcome as inputs. The fold
runs, then the store write is attempted (read-modify-write of the whole
namespace, replacing this entry's record); a save failure (`save_ok =
false`, the `except` branch at lines 197-198) is logged and leaves the
store unchanged, and the updated in-memory state is returned either way.
Totality of this Lean function embeds the source's `try`/`except`: the
update never propagates an exception. -/
def update_device_data (d : DeviceData) (probe : Bool × Timestamp)
    (store : String → Option SaveData) (entry_id : String) (save_ok : Bool) :
    DeviceData × (String → Option SaveData) :=
  let d2 := fold_observation d probe.1 probe.2
  if save_ok then
    (d2, fun k => if k = entry_id then some (save_device_data d2) else store k)
  else
    (d2, store)

/-- Environment of fallible externals for `check_device_status`:
`now`/`errNow` are the two `datetime.now()` calls (line 113 and line 151),
`arp` is `get_ip_from_mac` (total: it catches its own exceptions and
returns `None` on any failure or miss), `ping` is `icmplib.async_ping`
(`Except.error` = raised exception), `osping` is `subprocess.run(["ping",
...], check=True)` returning the return code (`Except.error` = raised,
including the nonzero-exit `CalledProcessError` that `check=True` turns
into an exception). -/
structure ProbeEnv where
  now : Timestamp
  errNow : Timestamp
  arp : String → Option String
  ping : String → Except String Bool
  osping : String → Except String Int

/-- Lines 116-140 of `__init__.py`: the MAC branch of
`check_device_status` — neighbor-table resolution, ping of the resolved
IP, or the OS-ping fallback whose inner `try`/`except` (lines 129-140)
degrades any fallback error to offline. A `ping` exception escapes this
branch (to the outer handler). -/
def probe_mac_path (env : ProbeEnv) (host : String) : Except String (Bool × Timestamp) :=
  match env.arp host with
  | some ip =>
      match env.ping ip with
      | Except.ok alive => Except.ok (alive, env.now)
      | Except.error e => Except.error e
  | none =>
      match env.osping host with
      | Except.ok rc => Except.ok (decide (rc = 0), env.now)
      | Except.error _ => Except.ok (false, env.now)

/-- Lines 141-146 of `__init__.py`: the direct-IP branch of
`check_device_status` — a single ping of the host string. -/
def probe_ip_path (env : ProbeEnv) (host : String) : Except String (Bool × Timestamp) :=
  match env.ping host with
  | Except.ok alive => Except.ok (alive, env.now)
  | Except.error e => Except.error e

/-- Lines 112-148 of `__init__.py`: the body of the outer `try` of
`check_device_status`, dispatching on whether the host string contains a
`:` separator. -/
def check_device_status_body (env : ProbeEnv) (host : String) :
    Except String (Bool × Timestamp) :=
  if host.data.contains ':' then
    match env.arp host with
    | some ip =>
        match env.ping ip with
        | Except.ok alive => Except.ok (alive, env.now)
        | Except.error e => Except.error e
    | none =>
        match env.osping host with
        | Except.ok rc => Except.ok (decide (rc = 0), env.now)
        | Except.error _ => Except.ok (false, env.now)
  else
    match env.ping host with
    | Except.ok alive => Except.ok (alive, env.now)
    | Except.error e => Except.error e

/-- Lines 103-151 of `__init__.py`: `check_device_status` with its outer
exception handler — any raise inside the body yields `(False,
datetime.now())`. -/
def check_device_status (env : ProbeEnv) (host : String) : Bool × Timestamp :=
  match check_device_status_body env host with
  | Except.ok r => r
  | Except.error _ => (false, env.errNow)

/-! Helper lemmas. -/

theorem pyround_intCast (M : Int) : pyround (M : Rat) = M := by
  norm_num [pyround, Int.floor_intCast]

theorem pyround_int_add (M : Int) (q : Rat) (h : q - (⌊q⌋ : Rat) ≠ 1/2) :
    pyround ((M : Rat) + q) = M + pyround q := by
  unfold pyround
  rw [Int.floor_int_add]
  have hq : (M : Rat) + q - ((M + ⌊q⌋ : Int) : Rat) = q - (⌊q⌋ : Rat) := by
    push_cast
    ring
  rw [hq]
  rcases lt_trichotomy (q - (⌊q⌋ : Rat)) (1/2) with hlt | heq | hgt
  · rw [if_pos hlt, if_pos hlt]
  · exact absurd heq h
  · rw [if_neg (not_lt.mpr hgt.le), if_neg (not_lt.mpr hgt.le), if_pos hgt, if_pos hgt]
    omega

theorem pyround_nonneg (q : Rat) (h : 0 ≤ q) : 0 ≤ pyround q := by
  have hf : (0 : Int) ≤ ⌊q⌋ := Int.floor_nonneg.mpr h
  unfold pyround
  split_ifs <;> omega

theorem rollover_of_ne (d : DeviceData) (now : Timestamp) (h : now.day ≠ d.last_date) :
    rollover d now = { d with online_time := 0, last_date := now.day } := by
  simp [rollover, h]

theorem rollover_of_eq (d : DeviceData) (now : Timestamp) (h : now.day = d.last_date) :
    rollover d now = d := by
  simp [rollover, h]

theorem rollover_last_check (d : DeviceData) (now : Timestamp) :
    (rollover d now).last_check = d.last_check := by
  unfold rollover
  split_ifs <;> rfl

theorem rollover_is_online (d : DeviceData) (now : Timestamp) :
    (rollover d now).is_online = d.is_online := by
  unfold rollover
  split_ifs <;> rfl

theorem accumulate_last_date (d : DeviceData) (b : Bool) (now : Timestamp) :
    (accumulate d b now).last_date = d.last_date := by
  unfold accumulate
  rcases d.last_check with _ | lc
  · rfl
  · dsimp only
    split_ifs <;> rfl

theorem fold_observation_last_date (d : DeviceData) (b : Bool) (now : Timestamp) :
    (fold_observation d b now).last_date = (rollover d now).last_date := by
  unfold fold_observation
  rw [accumulate_last_date]

theorem fold_observation_online_time (d : DeviceData) (b : Bool) (now : Timestamp) :
    (fold_observation d b now).online_time
      = ((pyround (accumulate (rollover d now) b now).online_time : Int) : Rat) := rfl

theorem accumulate_of_online (d : DeviceData) (b : Bool) (now : Timestamp) (lc : Timestamp)
    (hlc : d.last_check = some lc) (hon : d.is_online = true) (hb : b = true) :
    accumulate d b now = { d with online_time := d.online_time + total_seconds lc now / 60 } := by
  unfold accumulate
  rw [hlc, hon, hb]
  rfl

theorem accumulate_no_credit (d : DeviceData) (b : Bool) (now : Timestamp)
    (h : (d.is_online && b) = false) :
    accumulate d b now = d := by
  unfold accumulate
  rcases d.last_check with _ | lc
  · rfl
  · dsimp only
    rw [h]
    rfl

/-! Claim theorems. -/

/-- C1: Day rollover. For every state with `last_date = D` and
`online_time = M > 0`, folding an observation dated `D + 1` sets
`last_date` (the current day) to `D + 1`, and the fold behaves exactly as
if `online_time` had first been reset to 0 — the rollover reset happens
before any accumulation and takes precedence over it. -/
theorem c1_day_rollover (d : DeviceData) (b : Bool) (now : Timestamp) (D : Int) (M : Rat)
    (hD : d.last_date = D) (hM : d.online_time = M) (hpos : 0 < M)
    (hday : now.day = D + 1) :
    (fold_observation d b now).last_date = D + 1 ∧
    fold_observation d b now = fold_observation { d with online_time := 0 } b now := by
  have hne : now.day ≠ d.last_date := by
    rw [hD, hday]
    omega
  constructor
  · rw [fold_observation_last_date, rollover_of_ne d now hne, hday]
  · obtain ⟨ot, lc, ld, io⟩ := d
    unfold fold_observation
    rw [rollover_of_ne _ now hne, rollover_of_ne _ now (by exact hne)]

/-- C1 witness: the rollover theorem applied at a concrete state (day 5,
10 accumulated minutes, previously online) folded one day later. -/
theorem c1_day_rollover_witness :
    (fold_observation ⟨10, some ⟨5, 86340⟩, 5, true⟩ true ⟨6, 30⟩).last_date = 5 + 1 ∧
    fold_observation ⟨10, some ⟨5, 86340⟩, 5, true⟩ true ⟨6, 30⟩
      = fold_observation ⟨0, some ⟨5, 86340⟩, 5, true⟩ true ⟨6, 30⟩ :=
  c1_day_rollover ⟨10, some ⟨5, 86340⟩, 5, true⟩ true ⟨6, 30⟩ 5 10 rfl rfl
    (by norm_num) rfl

/-- The concrete cross-midnight state of the spec's scenario:
`online_minutes = 10`, `current_day` = 2024-01-01 (day ordinal 19723 since
1970-01-01), previously online, last checked 2024-01-01T23:59:00 (second
86340 of the day). -/
def crossMidnightState : DeviceData :=
  { online_time := 10, last_check := some ⟨19723, 86340⟩,
    last_date := 19723, is_online := true }

/-- The scenario's observation time 2024-01-02T00:00:30 (day ordinal
19724, second 30 of the day). -/
def crossMidnightNow : Timestamp := ⟨19724, 30⟩

/-- C2 counterexample: folding `(is_online = true, now =
2024-01-02T00:00:30)` into the scenario state does NOT yield
`online_minutes = 0`. The rollover resets the counter, but the
accumulation step then still fires (a previous check exists and both
observations are online), credits the 90-second cross-midnight interval
as 1.5 minutes, and the rounding step makes it 2. -/
theorem c2_counterexample :
    (fold_observation crossMidnightState true crossMidnightNow).online_time ≠ 0 := by
  norm_num [crossMidnightState, crossMidnightNow, fold_observation, accumulate,
    rollover, total_seconds, pyround]

/-- C2 amended: the cross-midnight fold yields `current_day` = 2024-01-02
and `online_minutes = 2` — the rollover fires first, but the 90-second
cross-midnight interval is then credited entirely to the new day
(1.5 minutes, rounded to 2), per the day-boundary credit policy. -/
theorem c2_cross_midnight_amended :
    (fold_observation crossMidnightState true crossMidnightNow).last_date = 19724 ∧
    (fold_observation crossMidnightState true crossMidnightNow).online_time = 2 := by
  constructor
  · norm_num [crossMidnightState, crossMidnightNow, fold_observation, accumulate,
      rollover, total_seconds]
  · norm_num [crossMidnightState, crossMidnightNow, fold_observation, accumulate,
      rollover, total_seconds, pyround]

/-- C7: Day-boundary credit policy. When the previous check exists and
both it and the new observation are online but the new observation falls
on a different calendar day, the fold first resets at the rollover and
then credits the whole elapsed interval (in rounded minutes) to the new
day: the resulting `online_time` is exactly `round` of the full elapsed
minutes, with no split at midnight, and `last_date` is the new day. -/
theorem c7_day_boundary_credit (d : DeviceData) (t0 now : Timestamp)
    (hlc : d.last_check = some t0) (hon : d.is_online = true)
    (hday : now.day ≠ d.last_date) :
    (fold_observation d true now).last_date = now.day ∧
    (fold_observation d true now).online_time
      = ((pyround (total_seconds t0 now / 60) : Int) : Rat) := by
  constructor
  · rw [fold_observation_last_date, rollover_of_ne d now hday]
  · rw [fold_observation_online_time, rollover_of_ne d now hday]
    rw [accumulate_of_online _ true now t0 (by exact hlc) (by exact hon) rfl]
    norm_num

/-- C7 witness: a concrete 90-second interval spanning the boundary from
day 5 to day 6 is credited in full (1.5 minutes, rounded to 2) to day 6. -/
theorem c7_day_boundary_credit_witness :
    (fold_observation ⟨7, some ⟨5, 86340⟩, 5, true⟩ true ⟨6, 30⟩).last_date = (6 : Int) ∧
    (fold_observation ⟨7, some ⟨5, 86340⟩, 5, true⟩ true ⟨6, 30⟩).online_time
      = ((pyround (total_seconds ⟨5, 86340⟩ ⟨6, 30⟩ / 60) : Int) : Rat) :=
  c7_day_boundary_credit ⟨7, some ⟨5, 86340⟩, 5, true⟩ ⟨5, 86340⟩ ⟨6, 30⟩ rfl rfl
    (by norm_num)

/-- A state with an odd accumulated total (1 minute), previously online,
last checked at second 0 of day 0. -/
def halfMinuteStateOdd : DeviceData :=
  { online_time := 1, last_check := some ⟨0, 0⟩, last_date := 0, is_online := true }

/-- The same state but with an even accumulated total (0 minutes). -/
def halfMinuteStateEven : DeviceData :=
  { online_time := 0, last_check := some ⟨0, 0⟩, last_date := 0, is_online := true }

/-- Thirty seconds after the previous check, same day. -/
def halfMinuteNow : Timestamp := ⟨0, 30⟩

/-- C3 counterexample: two sustained-online folds over the *same*
30-second elapsed interval (exactly representable in binary floating
point) produce different increments — 1 when the prior total is 1, but 0
when the prior total is 0 — because Python's `round` (half to even) is
applied to the running total, not to the delta. Hence the increment is not
`round((t1-t0)/60s)` for any rounding function of the elapsed time alone;
in particular it differs from Python's own `round(30s/60) = 0` on the
odd-total state. -/
theorem c3_counterexample :
    (fold_observation halfMinuteStateOdd true halfMinuteNow).online_time
        - halfMinuteStateOdd.online_time = 1 ∧
    (fold_observation halfMinuteStateEven true halfMinuteNow).online_time
        - halfMinuteStateEven.online_time = 0 ∧
    ((pyround (total_seconds ⟨0, 0⟩ halfMinuteNow / 60) : Int) : Rat) = 0 := by
  refine ⟨?_, ?_, ?_⟩ <;>
    norm_num [halfMinuteStateOdd, halfMinuteStateEven, halfMinuteNow, fold_observation,
      accumulate, rollover, total_seconds, pyround]

/-- C3 amended: for a sustained-online fold on the same calendar day with
prior integer total `M`, the new total is `round(M + (t1-t0)/60)` under
Python's half-to-even rounding; whenever `(t1-t0)/60` is not an exact
half-integer this increases `online_time` by exactly `round((t1-t0)/60s)`,
but at exact half-minute fractions the increment instead follows the
parity of `M` (half-to-even rounding of the running total). -/
theorem c3_sustained_online_amended (d : DeviceData) (t0 now : Timestamp) (M : Int)
    (hlc : d.last_check = some t0) (hon : d.is_online = true)
    (hday : now.day = d.last_date) (hM : d.online_time = (M : Rat))
    (hfrac : total_seconds t0 now / 60 - (⌊total_seconds t0 now / 60⌋ : Rat) ≠ 1/2) :
    (fold_observation d true now).online_time
      = d.online_time + ((pyround (total_seconds t0 now / 60) : Int) : Rat) := by
  rw [fold_observation_online_time, rollover_of_eq d now hday]
  rw [accumulate_of_online d true now t0 hlc hon rfl]
  show ((pyround (d.online_time + total_seconds t0 now / 60) : Int) : Rat) = _
  rw [hM, pyround_int_add M _ hfrac]
  push_cast
  ring

/-- C3 amended witness: a 70-second sustained-online interval (7/6 of a
minute, fractional part 1/6) increases the total by round(7/6) = 1. -/
theorem c3_sustained_online_amended_witness :
    (fold_observation ⟨4, some ⟨0, 10⟩, 0, true⟩ true ⟨0, 80⟩).online_time
      = (DeviceData.online_time ⟨4, some ⟨0, 10⟩, 0, true⟩)
        + ((pyround (total_seconds ⟨0, 10⟩ ⟨0, 80⟩ / 60) : Int) : Rat) :=
  c3_sustained_online_amended ⟨4, some ⟨0, 10⟩, 0, true⟩ ⟨0, 10⟩ ⟨0, 80⟩ 4 rfl rfl rfl
    (by norm_num) (by norm_num [total_seconds])

/-- A concrete persisted-state example for the restore round-trip: 5
accumulated minutes on day 19723, currently online, last checked at
01:00:00. -/
def restoreState : DeviceData :=
  { online_time := 5, last_check := some ⟨19723, 3600⟩,
    last_date := 19723, is_online := true }

/-- C4 counterexample: saving a state with `is_online = true` and loading
it back the same calendar day yields a state whose `is_online` is `false`.
The load path of `async_setup_entry` restores `online_time`, `last_date`
and `last_check`, but never restores `is_online` — it keeps the default
`false` — so the loaded state is not behaviorally equivalent to the saved
one ("same is_online" fails). -/
theorem c4_counterexample :
    (load_device_data (some (save_device_data restoreState))
        restoreState.last_date).is_online
      ≠ restoreState.is_online := by
  simp [load_device_data, save_device_data, restoreState]

/-- C4 amended: saving a state and loading it during the same calendar day
restores `online_minutes`, `last_check` and `current_day` exactly, but
resets `is_online` to `false`: the loaded state is the saved state with
`is_online := false` (so the first interval after a restart is never
credited, even though `last_check` is restored). -/
theorem c4_restore_amended (S : DeviceData) (today : Int) (h : S.last_date = today) :
    load_device_data (some (save_device_data S)) today = { S with is_online := false } := by
  obtain ⟨ot, lc, ld, io⟩ := S
  subst h
  simp [load_device_data, save_device_data]

/-- C4 amended witness: the round-trip theorem applied to the concrete
example state, loaded on its own day. -/
theorem c4_restore_amended_witness :
    load_device_data (some (save_device_data restoreState)) 19723
      = { restoreState with is_online := false } :=
  c4_restore_amended restoreState 19723 rfl

/-- C5: No accumulation without two consecutive online observations. For
every state whose `online_time` is a non-negative integer (as every
reachable state's is), folding an offline observation never increases
`online_time`; and if the previous observation was offline, folding an
online observation does not increase it either, regardless of the elapsed
time. -/
theorem c5_no_accumulation (d : DeviceData) (now : Timestamp) (M : Int)
    (hM : d.online_time = (M : Rat)) (h0 : 0 ≤ M) :
    (fold_observation d false now).online_time ≤ d.online_time ∧
    (d.is_online = false → (fold_observation d true now).online_time ≤ d.online_time) := by
  have key : ∀ b : Bool, (d.is_online && b) = false →
      (fold_observation d b now).online_time ≤ d.online_time := by
    intro b hb
    rw [fold_observation_online_time]
    rw [accumulate_no_credit _ b now (by rw [rollover_is_online]; exact hb)]
    by_cases hd : now.day = d.last_date
    · rw [rollover_of_eq d now hd, hM, pyround_intCast]
    · rw [rollover_of_ne d now hd]
      show ((pyround 0 : Int) : Rat) ≤ d.online_time
      rw [show pyround 0 = ((0 : Int)) from pyround_intCast 0, hM]
      exact_mod_cast h0
  constructor
  · exact key false (by simp)
  · intro hoff
    exact key true (by rw [hoff]; rfl)

/-- C5 witness: a concrete previously-offline state (3 accumulated
minutes) folded one minute later, once with an offline and once with an
online observation; neither fold increases `online_time`. -/
theorem c5_no_accumulation_witness :
    (fold_observation ⟨3, some ⟨0, 0⟩, 0, false⟩ false ⟨0, 60⟩).online_time
        ≤ (DeviceData.online_time ⟨3, some ⟨0, 0⟩, 0, false⟩) ∧
    ((DeviceData.is_online ⟨3, some ⟨0, 0⟩, 0, false⟩) = false →
      (fold_observation ⟨3, some ⟨0, 0⟩, 0, false⟩ true ⟨0, 60⟩).online_time
        ≤ (DeviceData.online_time ⟨3, some ⟨0, 0⟩, 0, false⟩)) :=
  c5_no_accumulation ⟨3, some ⟨0, 0⟩, 0, false⟩ ⟨0, 60⟩ 3 (by norm_num) (by norm_num)

/-- C6: Probe totality. For every environment and target string the probe
returns a definite `(bool, timestamp)` pair: either the body completed and
its result is returned as-is, or the body raised and the outer handler
returns `(false, errNow)` — an exception never propagates to the caller
and `checked_at` is still a current time. Moreover (second conjunct), a
resolution failure whose OS-ping fallback also errors is degraded by the
inner handler to `(false, now)`. -/
theorem c6_probe_total (env : ProbeEnv) (host : String) :
    ((∃ r, check_device_status_body env host = Except.ok r ∧
        check_device_status env host = r) ∨
      (∃ e, check_device_status_body env host = Except.error e ∧
        check_device_status env host = (false, env.errNow))) ∧
    (∀ msg, host.data.contains ':' = true → env.arp host = none →
      env.osping host = Except.error msg →
      check_device_status env host = (false, env.now)) := by
  constructor
  · rcases h : check_device_status_body env host with e | r
    · exact Or.inr ⟨e, rfl, by simp [check_device_status, h]⟩
    · exact Or.inl ⟨r, rfl, by simp [check_device_status, h]⟩
  · intro msg hc ha ho
    simp only [check_device_status, check_device_status_body, hc, ha, ho, if_true]

/-- A fully failing probe environment: neighbor-table resolution misses
and both ping oracles raise. -/
def envAllFail : ProbeEnv :=
  { now := ⟨0, 0⟩, errNow := ⟨0, 1⟩, arp := fun _ => none,
    ping := fun _ => Except.error "boom", osping := fun _ => Except.error "boom" }

/-- C6 witness: in the fully failing environment, probing the MAC-like
target still returns the definite pair `(false, now)`. -/
theorem c6_probe_total_witness :
    check_device_status envAllFail "a:b" = (false, ProbeEnv.now envAllFail) :=
  (c6_probe_total envAllFail "a:b").2 "boom" (by decide) rfl rfl

/-- C8: The per-tick update is total (it never propagates an exception:
the Lean function returns a plain pair for every input, embedding the
source's `try`/`except` wrappers) and a save failure does not affect the
returned in-memory state: the first component is the folded state for
every save outcome, and a failed save leaves the store unchanged. -/
theorem c8_update_never_raises (d : DeviceData) (p : Bool × Timestamp)
    (store : String → Option SaveData) (entry_id : String) (save_ok : Bool) :
    (update_device_data d p store entry_id save_ok).1 = fold_observation d p.1 p.2 ∧
    (update_device_data d p store entry_id false).2 = store := by
  unfold update_device_data
  constructor
  · split_ifs <;> rfl
  · rfl

/-- C9: Target dispatch. For every target string the prober body takes the
MAC-resolution path (neighbor lookup, ping of the resolved IP, OS-ping
fallback) exactly when the string contains a `:` character, and the
direct-IP ping path otherwise; consequently the literal IPv6 address
`2001:db8::1`, which contains `:`, is dispatched to the MAC path. -/
theorem c9_target_dispatch :
    (∀ (env : ProbeEnv) (host : String),
      check_device_status_body env host
        = if host.data.contains ':' then probe_mac_path env host
          else probe_ip_path env host) ∧
    (∀ env : ProbeEnv,
      check_device_status_body env "2001:db8::1" = probe_mac_path env "2001:db8::1") := by
  have h1 : ∀ (env : ProbeEnv) (host : String),
      check_device_status_body env host
        = if host.data.contains ':' then probe_mac_path env host
          else probe_ip_path env host := by
    intro env host
    unfold check_device_status_body probe_mac_path probe_ip_path
    rfl
  have hc : ("2001:db8::1".data.contains ':') = true := by decide
  exact ⟨h1, fun env => by rw [h1, if_pos hc]⟩

/-- C10: Integrality invariant. For every state whose `online_time` is a
non-negative integer and whose `last_check` (when present) is not later
than the new observation, the fold returns an `online_time` that is again
a non-negative whole integer — the running total is re-rounded on every
fold. -/
theorem c10_integer_invariant (d : DeviceData) (b : Bool) (now : Timestamp) (M : Int)
    (hM : d.online_time = (M : Rat)) (h0 : 0 ≤ M)
    (hle : ∀ t0, d.last_check = some t0 → 0 ≤ total_seconds t0 now) :
    ∃ N : Int, (fold_observation d b now).online_time = (N : Rat) ∧ 0 ≤ N := by
  refine ⟨pyround (accumulate (rollover d now) b now).online_time,
    fold_observation_online_time d b now, pyround_nonneg _ ?_⟩
  have hroll : 0 ≤ (rollover d now).online_time := by
    unfold rollover
    split_ifs
    · norm_num
    · rw [hM]
      exact_mod_cast h0
  unfold accumulate
  rw [rollover_last_check]
  rcases hlc : d.last_check with _ | t0
  · exact hroll
  · have hts : 0 ≤ total_seconds t0 now / 60 := by
      have := hle t0 hlc
      positivity
    dsimp only
    split_ifs
    · exact add_nonneg hroll hts
    · exact hroll

/-- C10 witness: the invariant applied to a concrete online state (2
minutes accumulated, last checked at second 0) folded one minute later. -/
theorem c10_integer_invariant_witness :
    ∃ N : Int,
      (fold_observation ⟨2, some ⟨0, 0⟩, 0, true⟩ true ⟨0, 60⟩).online_time = (N : Rat)
        ∧ 0 ≤ N :=
  c10_integer_invariant ⟨2, some ⟨0, 0⟩, 0, true⟩ true ⟨0, 60⟩ 2 (by norm_num)
    (by norm_num)
    (by
      intro t0 h
      cases h
      norm_num [total_seconds])
